import Mathlib

/-!
Shallow embedding of `proxy.py`, the request router / transport adapter of the
react-python-lambda-spike repository, together with proofs of the specified
properties.

Conventions of the embedding:
* byte strings are lists of naturals;
* the multi-valued header mapping (a Python `Dict[str, List[str]]`) is an
  insertion-ordered association list `List (String × List String)`;
* the filesystem seen by the static handler is a function
  `String → Option Bytes` returning the content of an existing regular file;
* `mimetypes.guess_type(path)[0]` is a function `String → Option String`;
* the network side of `_api_server_handler` is an opaque handler parameter
  (its behaviour is irrelevant to the routing properties proved here);
* wall-clock instants and timeouts are integers (only their ordering matters
  to the properties proved here); the readiness loop takes an
  explicit fuel bound and returns `none` when the fuel runs out, so that its
  results are only ever about terminating executions of the real loop.
-/

namespace ProxySpike

/-- Byte strings (Python `bytes`) are modelled as lists of byte values. -/
abbrev Bytes := List Nat

/-- ASCII bytes of a string literal, modelling Python byte literals b"...". -/
def strBytes (s : String) : Bytes := s.data.map Char.toNat

/-- The multi-valued header mapping `Dict[str, List[str]]` of `proxy.py`,
as an insertion-ordered association list. -/
abbrev Headers := List (String × List String)

/-- The multi-valued query mapping produced by `parse_qs`. -/
abbrev Query := List (String × List String)

/-- The internal response triple `(status, headers, body)` of `proxy.py`. -/
abbrev Resp := Nat × Headers × Option Bytes

/-- Embedding of Python `str.upper()` (ASCII case mapping, which is all the
code exercises: HTTP method names). -/
def pyUpper (s : String) : String := ⟨s.data.map Char.toUpper⟩

/-- Embedding of Python `str.lower()` (ASCII case mapping, which is all the
code exercises: HTTP header names). -/
def pyLower (s : String) : String := ⟨s.data.map Char.toLower⟩

/-- Embedding of Python `str.startswith(pre)`. -/
def strStartsWith (s pre : String) : Bool := pre.data.isPrefixOf s.data

/-- Embedding of Python `path.lstrip("/")`. -/
def lstripSlash (s : String) : String := ⟨s.data.dropWhile (· == '/')⟩

/-- Embedding of `Path(root) / rel` for a relative `rel` (pathlib drops an
empty segment). -/
def joinPath (root rel : String) : String :=
  if rel = "" then root else root ++ "/" ++ rel

/-- The file path `Path(static_path) / path.lstrip("/")` resolved by
`_static_handler`. -/
def resolvePath (static_path p : String) : String :=
  joinPath static_path (lstripSlash p)

/-- Embedding of `_static_handler` (proxy.py lines 279-322).  `fs` is the
filesystem (content of existing regular files under their joined path) and
`guessType` is `mimetypes.guess_type(path)[0]`. -/
def _static_handler (fs : String → Option Bytes) (guessType : String → Option String)
    (static_path : String) (method path : String) : Resp :=
  let m := pyUpper method
  let filepath := resolvePath static_path path
  if (m = "GET" ∨ m = "HEAD") ∧ (fs filepath).isSome = true then
    let content := (fs filepath).getD []
    let response_body : Bytes := if m = "HEAD" then [] else content
    let content_length : Nat := if m = "HEAD" then content.length else response_body.length
    let content_type := (guessType path).getD "text/plain"
    (200,
     [("Content-Length", [toString content_length]), ("Content-Type", [content_type])],
     some response_body)
  else if ¬(m = "GET" ∨ m = "HEAD") then
    (401,
     [("Content-Length", [toString (strBytes "Bad Request").length]),
      ("Content-Type", ["text/plain"])],
     some (strBytes "Bad Request"))
  else
    (404,
     [("Content-Length", [toString (strBytes "Not Found").length]),
      ("Content-Type", ["text/plain"])],
     some (strBytes "Not Found"))

/-- The type of `_api_server_handler` as seen from the router: an opaque
request handler for the backend proxy leg. -/
abbrev ApiHandler := String → String → Query → Headers → Option Bytes → Int → Resp

/-- Embedding of the router `_root_handler` (proxy.py lines 222-243), with the
closure state of `make_proxy_app` (`api`, `fs`, `guessType`, `static_path`)
made explicit. -/
def root_handler (api : ApiHandler) (fs : String → Option Bytes)
    (guessType : String → Option String) (static_path : String)
    (method path : String) (query : Query) (headers : Headers)
    (body : Option Bytes) (timeout : Int) : Resp :=
  if path = "/" then
    _static_handler fs guessType static_path method "/index.html"
  else if strStartsWith path "/api/" = true then
    api method path query headers body timeout
  else
    _static_handler fs guessType static_path method path

/-- Embedding of Python `values.split(",")` used on gateway header values. -/
def splitCommas (s : String) : List String := s.splitOn ","

/-- Embedding of the gateway header parsing
`{name: values.split(",") for name, values in event["headers"].items()}`
(proxy.py line 81). -/
def parseEventHeaders (eventHeaders : List (String × String)) : Headers :=
  eventHeaders.map fun p => (p.1, splitCommas p.2)

/-- Embedding of one iteration of the cookie loop (proxy.py lines 82-86):
append to the `Cookie` entry if the key is present, else insert it. -/
def addCookie (h : Headers) (cookie : String) : Headers :=
  if h.any (fun p => p.1 == "Cookie") then
    h.map fun p => if p.1 = "Cookie" then (p.1, p.2 ++ [cookie]) else p
  else
    h ++ [("Cookie", [cookie])]

/-- Embedding of the whole cookie loop of `lambda_handler`. -/
def mergeCookies (h : Headers) (cookies : List String) : Headers :=
  cookies.foldl addCookie h

/-- The internal request headers built by `lambda_handler` from the gateway
event's `headers` and `cookies` fields. -/
def gatewayRequestHeaders (eventHeaders : List (String × String))
    (cookies : List String) : Headers :=
  mergeCookies (parseEventHeaders eventHeaders) cookies

/-- Embedding of `",".join(values)`. -/
def joinComma (vs : List String) : String := String.intercalate "," vs

/-- Embedding of the reply `headers` map built by `lambda_handler`
(proxy.py lines 113-117): comma-join the values of every header whose name is
not `set-cookie` case-insensitively. -/
def gatewayReplyHeaders (h : Headers) : List (String × String) :=
  (h.filter fun p => !(pyLower p.1 == "set-cookie")).map fun p => (p.1, joinComma p.2)

/-- Embedding of the reply `cookies` list built by `lambda_handler`
(proxy.py lines 118-123): all values of headers named `set-cookie`
case-insensitively, in order. -/
def gatewayReplyCookies (h : Headers) : List String :=
  (h.filter fun p => pyLower p.1 == "set-cookie").flatMap fun p => p.2

/-- Embedding of `_is_text_content_type` (proxy.py lines 343-353). -/
def _is_text_content_type (content_type : String) : Bool :=
  if strStartsWith content_type "text/" then true
  else if strStartsWith content_type "application/javascript" then true
  else if strStartsWith content_type "application/json" then true
  else if strStartsWith content_type "image/svg+xml" then true
  else false

/-- Embedding of the header scan of `_is_binary_content` (proxy.py lines
329-335): fold over the headers, the last matching entry winning, starting
from the defaults `text/plain` and `identity`. -/
def scanContentHeaders (h : Headers) : String × String :=
  h.foldl
    (fun acc p =>
      (if pyLower p.1 == "content-type" then p.2.headD "" else acc.1,
       if pyLower p.1 == "content-encoding" then p.2.headD "" else acc.2))
    ("text/plain", "identity")

/-- Embedding of `_is_binary_content` (proxy.py lines 327-341). -/
def _is_binary_content (h : Headers) : Bool :=
  let s := scanContentHeaders h
  if s.2 ≠ "identity" then true
  else if _is_text_content_type s.1 then false
  else true

/-- Outcome of `start_api_server_process`: whether the `Popen` handle was
returned to the caller, whether `process.terminate()` was called, and whether
the `RuntimeError` was raised. -/
structure StartResult where
  handleReturned : Bool
  terminated : Bool
  raised : Bool
deriving DecidableEq

/-- The successful outcome: the handle is returned, nothing is terminated. -/
def startedOk : StartResult := ⟨true, false, false⟩

/-- The timeout outcome: the process is terminated and `RuntimeError` raised. -/
def startupTimeout : StartResult := ⟨false, true, true⟩

/-- Embedding of the readiness loop of `start_api_server_process` (proxy.py
lines 203-214).  `probe k` is the result of the k-th `connect_ex` attempt,
`clock k` the value of `time.monotonic()` at the k-th deadline check, and
`endTime` the precomputed deadline.  The explicit fuel bound makes the loop
total; `none` means the bounded unfolding did not finish. -/
def probeLoop (probe : Nat → Bool) (clock : Nat → Int) (endTime : Int) :
    Nat → Nat → Option StartResult
  | 0, _ => none
  | fuel + 1, k =>
    if probe k then some startedOk
    else if endTime ≤ clock k then some startupTimeout
    else probeLoop probe clock endTime fuel (k + 1)

/-- Embedding of `start_api_server_process` (proxy.py lines 192-214) from the
point where the deadline `end_time = time.monotonic() + start_timeout` is
computed. -/
def start_api_server_process (probe : Nat → Bool) (clock : Nat → Int)
    (startTime start_timeout : Int) (fuel : Nat) : Option StartResult :=
  probeLoop probe clock (startTime + start_timeout) fuel 0

/-! Definitions supporting the statements of the claims (spec-side notions and
concrete example inputs). -/

/-- A one-file filesystem: `app/build/index.html` holds the single byte h. -/
def cexFs : String → Option Bytes := fun p =>
  if p = "app/build/index.html" then some (strBytes "h") else none

/-- A `guess_type` that recognises no extension. -/
def noGuess : String → Option String := fun _ => none

/-- An opaque backend handler used as a concrete `ApiHandler`. -/
def cexApi : ApiHandler := fun _ _ _ _ _ _ => (500, [], none)

/-- The value assigned to `content_type` or `content_encoding` by the scan of
`_is_binary_content`, written the way the spec reads: the first value of the
matching header, with the given default when the header is absent. -/
def headerFirstVal (h : Headers) (lname d : String) : String :=
  match h.find? (fun p => pyLower p.1 == lname) with
  | some p => p.2.headD ""
  | none => d

/-- The value left in `content_type` / `content_encoding` after the loop of
`_is_binary_content`: the last matching entry wins, starting from `d`. -/
def lastMatchVal (h : Headers) (lname d : String) : String :=
  h.foldl (fun acc p => if pyLower p.1 == lname then p.2.headD "" else acc) d

/-- The content types the spec calls text: those starting with `text/`,
`application/javascript`, `application/json`, or `image/svg+xml`. -/
def textLikeContentType (ct : String) : Bool :=
  strStartsWith ct "text/" || strStartsWith ct "application/javascript" ||
    strStartsWith ct "application/json" || strStartsWith ct "image/svg+xml"

/-- All values of `Content-Length` headers (case-insensitive) of a headers
mapping, in order. -/
def contentLengthVals (h : Headers) : List String :=
  (h.filter fun p => pyLower p.1 == "content-length").flatMap fun p => p.2

/-- Length of a response body, 0 when the body is absent. -/
def respBodyLen (r : Resp) : Nat := ((r.2.2).getD []).length

/-- The spec's claimed invariant: every `Content-Length` value equals the
length of the body (or 0 if the body is absent). -/
def ContentLengthInv (r : Resp) : Prop :=
  ∀ v ∈ contentLengthVals r.2.1, v = toString (respBodyLen r)

/-- The exact-key test `"Cookie" in headers` performed by the cookie loop. -/
def exactCookie (p : String × List String) : Bool := p.1 == "Cookie"

/-- Entries whose name is `Cookie` case-insensitively. -/
def cookieish (p : String × List String) : Bool := pyLower p.1 == "cookie"

/-- The value sequence of the (case-insensitive) multi-valued `Cookie` header:
all values of cookie-named entries, in mapping order. -/
def cookieValues (h : Headers) : List String :=
  (h.filter cookieish).flatMap fun p => p.2

/-- Invariant maintained by the cookie loop: either no exact `Cookie` key is
present (and at most one case-variant of it), or the headers decompose as
`h1 ++ ("Cookie", vs) :: h2` where `h1` holds no exact `Cookie` key and `h2`
holds no cookie-named entry at all. -/
def CookieInv (h : Headers) : Prop :=
  (h.any exactCookie = false ∧ h.countP cookieish ≤ 1) ∨
  (∃ h1 vs h2, h = h1 ++ ("Cookie", vs) :: h2 ∧
    h1.any exactCookie = false ∧ h2.countP cookieish = 0)

/-- Headers of the C1 round-trip example: identity-encoded JSON. -/
def exJsonHeaders : Headers :=
  [("Content-Encoding", ["identity"]), ("Content-Type", ["application/json"])]

/-- Headers of the C1 round-trip example: a PNG image. -/
def exPngHeaders : Headers := [("Content-Type", ["image/png"])]

/-- A response headers mapping carrying two `Set-Cookie` values. -/
def exSetCookieHeaders : Headers :=
  [("Content-Type", ["text/html"]), ("Set-Cookie", ["s1=1", "s2=2"])]

/-! Helper lemmas. -/

theorem charUpper_idem (c : Char) : c.toUpper.toUpper = c.toUpper := by
  unfold Char.toUpper
  by_cases h : c.toNat ≥ 97 ∧ c.toNat ≤ 122
  · have hvalid : (c.toNat - 32).isValidChar := by left; omega
    have hv : (Char.ofNat (c.toNat - 32)).toNat = c.toNat - 32 := by
      rw [Char.ofNat, dif_pos hvalid]; rfl
    simp only [h, if_true, if_pos]
    have hno : ¬((Char.ofNat (c.toNat - 32)).toNat ≥ 97 ∧
        (Char.ofNat (c.toNat - 32)).toNat ≤ 122) := by
      rw [hv]; omega
    simp [hno]
  · simp [h]

theorem pyUpper_idem (s : String) : pyUpper (pyUpper s) = pyUpper s := by
  show String.mk (List.map Char.toUpper (List.map Char.toUpper s.data)) = _
  rw [List.map_map]
  exact congrArg String.mk (List.map_congr_left fun a _ => charUpper_idem a)

/-! Claim theorems. -/

/-- Claim C3: routing a request whose path is exactly `/` yields the identical
response to routing the same request with path `/index.html`; the method is
preserved and the static resolver serves `/index.html` in both cases. -/
theorem route_root_eq_index (api : ApiHandler) (fs : String → Option Bytes)
    (gt : String → Option String) (sp method : String) (q : Query) (h : Headers)
    (b : Option Bytes) (t : Int) :
    root_handler api fs gt sp method "/" q h b t
      = root_handler api fs gt sp method "/index.html" q h b t := rfl

/-- Claim C8: for requests dispatched to static resolution (path not starting
with `/api/`), the routed response depends only on the method and the path —
query, headers, body, and timeout are ignored. -/
theorem static_routes_ignore_request_data (api : ApiHandler)
    (fs : String → Option Bytes) (gt : String → Option String) (sp method path : String)
    (q1 q2 : Query) (h1 h2 : Headers) (b1 b2 : Option Bytes) (t1 t2 : Int)
    (hp : strStartsWith path "/api/" = false) :
    root_handler api fs gt sp method path q1 h1 b1 t1
      = root_handler api fs gt sp method path q2 h2 b2 t2 := by
  by_cases hroot : path = "/"
  · simp [root_handler, hroot]
  · simp [root_handler, hroot, hp]

/-- Witness for C8: two requests for `/x` differing in query, headers, body
and timeout get the same response. -/
theorem static_routes_ignore_request_data_witness :
    root_handler cexApi cexFs noGuess "app/build" "GET" "/x" [] [] none 15
      = root_handler cexApi cexFs noGuess "app/build" "GET" "/x"
          [("a", ["b"])] [("H", ["v"])] (some [1]) 3 :=
  static_routes_ignore_request_data cexApi cexFs noGuess "app/build" "GET" "/x"
    [] [("a", ["b"])] [] [("H", ["v"])] none (some [1]) 15 3 (by decide)

/-- Claim C10: the static resolver's method check is case-insensitive — any
method string is served exactly like its uppercased form. -/
theorem static_method_case_insensitive (fs : String → Option Bytes)
    (gt : String → Option String) (sp method path : String) :
    _static_handler fs gt sp method path
      = _static_handler fs gt sp (pyUpper method) path := by
  unfold _static_handler
  rw [pyUpper_idem]

/-- Claim C6: every method other than GET and HEAD (after upper-casing) gets a
401 response with body exactly "Bad Request" from the static resolver,
whatever the path resolves to. -/
theorem static_rejects_other_methods (fs : String → Option Bytes)
    (gt : String → Option String) (sp method path : String)
    (hg : pyUpper method ≠ "GET") (hh : pyUpper method ≠ "HEAD") :
    _static_handler fs gt sp method path
      = (401,
         [("Content-Length", ["11"]), ("Content-Type", ["text/plain"])],
         some (strBytes "Bad Request")) := by
  simp only [_static_handler]
  rw [if_neg (by simp [hg, hh]), if_pos (by simp [hg, hh])]
  decide

/-- Witness for C6: a POST to an existing file still gets 401 Bad Request. -/
theorem static_rejects_other_methods_witness :
    _static_handler cexFs noGuess "app/build" "POST" "/index.html"
      = (401,
         [("Content-Length", ["11"]), ("Content-Type", ["text/plain"])],
         some (strBytes "Bad Request")) :=
  static_rejects_other_methods cexFs noGuess "app/build" "POST" "/index.html"
    (by decide) (by decide)

theorem probeLoop_allFalse (probe : Nat → Bool) (clock : Nat → Int) (e : Int)
    (hp : ∀ j, probe j = false) :
    ∀ fuel k res, probeLoop probe clock e fuel k = some res → res = startupTimeout := by
  intro fuel
  induction fuel with
  | zero => intro k res h; simp [probeLoop] at h
  | succ f ih =>
    intro k res h
    rw [probeLoop, hp k] at h
    simp only [Bool.false_eq_true, if_false] at h
    by_cases hc : e ≤ clock k
    · rw [if_pos hc] at h
      exact (Option.some.injEq _ _ ▸ h).symm
    · rw [if_neg hc] at h
      exact ih _ _ h

theorem probeLoop_firstSuccess (probe : Nat → Bool) (clock : Nat → Int) (e : Int) :
    ∀ fuel k0 res, probeLoop probe clock e fuel k0 = some res →
    ∀ k, k0 ≤ k → probe k = true →
    (∀ j, k0 ≤ j → j < k → probe j = false ∧ clock j < e) →
    res = startedOk := by
  intro fuel
  induction fuel with
  | zero => intro k0 res h; simp [probeLoop] at h
  | succ f ih =>
    intro k0 res h k hk0 hpk hj
    by_cases hp0 : probe k0 = true
    · rw [probeLoop, if_pos hp0] at h
      exact (Option.some.injEq _ _ ▸ h).symm
    · have hk0k : k0 < k := by
        rcases Nat.lt_or_ge k0 k with hlt | hge
        · exact hlt
        · have : k0 = k := Nat.le_antisymm hk0 hge
          exact absurd (this ▸ hpk) hp0
      have hcl : clock k0 < e := (hj k0 le_rfl hk0k).2
      rw [probeLoop, if_neg (by simp [hp0]), if_neg (by omega)] at h
      exact ih (k0 + 1) res h k (by omega) hpk (fun j hj1 hj2 => hj j (by omega) hj2)

/-- Claim C7: for every terminating run of `start_api_server_process`, if no
connection probe ever succeeds, the call ends with the spawned process
terminated, the startup error raised, and no handle returned; and if some probe
succeeds while every earlier attempt failed before the deadline, the handle is
returned and the process is not terminated. -/
theorem start_api_timeout_or_success (probe : Nat → Bool) (clock : Nat → Int)
    (startTime t : Int) (fuel : Nat) (res : StartResult)
    (hr : start_api_server_process probe clock startTime t fuel = some res) :
    ((∀ j, probe j = false) →
      res.raised = true ∧ res.terminated = true ∧ res.handleReturned = false) ∧
    (∀ k, probe k = true →
      (∀ j, j < k → probe j = false ∧ clock j < startTime + t) →
      res.handleReturned = true ∧ res.terminated = false ∧ res.raised = false) := by
  constructor
  · intro hp
    have h := probeLoop_allFalse probe clock _ hp fuel 0 res hr
    rw [h]
    exact ⟨rfl, rfl, rfl⟩
  · intro k hpk hj
    have h := probeLoop_firstSuccess probe clock _ fuel 0 res hr k (Nat.zero_le k) hpk
      (fun j _ h2 => hj j h2)
    rw [h]
    exact ⟨rfl, rfl, rfl⟩

/-- Witness for C7: with a probe that never succeeds and a zero timeout, the
loop terminates the process, raises, and returns no handle. -/
theorem start_api_timeout_or_success_witness :
    startupTimeout.raised = true ∧ startupTimeout.terminated = true ∧
      startupTimeout.handleReturned = false :=
  (start_api_timeout_or_success (fun _ => false) (fun _ => 0) 0 0 1 startupTimeout
    (by decide)).1 (fun _ => rfl)

/-- Claim C9: the loop probes before checking the deadline, so whatever the
timeout — zero or negative included — a first probe that succeeds makes
`start_api_server_process` return the handle rather than raise. -/
theorem start_api_first_probe (probe : Nat → Bool) (clock : Nat → Int)
    (startTime t : Int) (fuel : Nat) (h0 : probe 0 = true) (hf : 0 < fuel) :
    start_api_server_process probe clock startTime t fuel = some startedOk := by
  obtain ⟨f, rfl⟩ : ∃ f, fuel = f + 1 := ⟨fuel - 1, by omega⟩
  rw [start_api_server_process, probeLoop, if_pos h0]

/-- Witness for C9: a negative timeout with an immediately-open port still
returns the handle. -/
theorem start_api_first_probe_witness :
    start_api_server_process (fun _ => true) (fun _ => 0) 0 (-1) 1 = some startedOk :=
  start_api_first_probe (fun _ => true) (fun _ => 0) 0 (-1) 1 rfl (by decide)

theorem scanContentHeaders_eq (h : Headers) :
    scanContentHeaders h =
      (lastMatchVal h "content-type" "text/plain",
       lastMatchVal h "content-encoding" "identity") := by
  suffices key : ∀ (l : Headers) (a b : String),
      l.foldl
        (fun acc p =>
          (if pyLower p.1 == "content-type" then p.2.headD "" else acc.1,
           if pyLower p.1 == "content-encoding" then p.2.headD "" else acc.2))
        (a, b)
      = (lastMatchVal l "content-type" a, lastMatchVal l "content-encoding" b) by
    exact key h "text/plain" "identity"
  intro l
  induction l with
  | nil => intro a b; rfl
  | cons p t ih =>
    intro a b
    simp only [List.foldl_cons, lastMatchVal] at *
    exact ih _ _

theorem lastMatchVal_of_countP_zero (h : Headers) (lname d : String)
    (h0 : h.countP (fun p => pyLower p.1 == lname) = 0) :
    lastMatchVal h lname d = d := by
  induction h with
  | nil => rfl
  | cons p t ih =>
    rw [List.countP_cons] at h0
    have hp : (pyLower p.1 == lname) = false := by
      by_contra hb
      rw [Bool.not_eq_false] at hb
      simp [hb] at h0
    simp only [lastMatchVal, List.foldl_cons, hp, Bool.false_eq_true, if_false] at *
    exact ih (by omega)

theorem lastMatchVal_eq_headerFirstVal (h : Headers) (lname d : String)
    (h1 : h.countP (fun p => pyLower p.1 == lname) ≤ 1) :
    lastMatchVal h lname d = headerFirstVal h lname d := by
  induction h with
  | nil => rfl
  | cons p t ih =>
    rw [List.countP_cons] at h1
    by_cases hp : (pyLower p.1 == lname) = true
    · have h0 : t.countP (fun p => pyLower p.1 == lname) = 0 := by
        simp only [hp, if_true] at h1; omega
      simp only [lastMatchVal, List.foldl_cons, hp, if_true]
      rw [headerFirstVal, @List.find?_cons_of_pos _ (fun q => pyLower q.1 == lname) p t hp]
      exact lastMatchVal_of_countP_zero t lname _ h0
    · rw [Bool.not_eq_true] at hp
      simp only [lastMatchVal, List.foldl_cons, hp, Bool.false_eq_true, if_false]
      rw [headerFirstVal,
        @List.find?_cons_of_neg _ (fun q => pyLower q.1 == lname) p t (by simp [hp])]
      exact ih (by omega)

theorem isTextContentType_eq (ct : String) :
    _is_text_content_type ct = textLikeContentType ct := by
  unfold _is_text_content_type textLikeContentType
  cases strStartsWith ct "text/" <;>
    cases strStartsWith ct "application/javascript" <;>
      cases strStartsWith ct "application/json" <;>
        cases strStartsWith ct "image/svg+xml" <;> simp

/-- Claim C1: for a response headers mapping (with nonempty value lists and at
most one entry per relevant case-insensitive name, as in the gateway's headers
map), `_is_binary_content` classifies the body as text exactly when the
Content-Encoding first value (default `identity`) is `identity` and the
Content-Type first value (default `text/plain`) starts with `text/`,
`application/javascript`, `application/json`, or `image/svg+xml`; it
classifies it as binary in every other case. -/
theorem is_binary_content_spec (h : Headers)
    (_hvals : ∀ p ∈ h, p.2 ≠ [])
    (hct : h.countP (fun p => pyLower p.1 == "content-type") ≤ 1)
    (hce : h.countP (fun p => pyLower p.1 == "content-encoding") ≤ 1) :
    _is_binary_content h = false ↔
      headerFirstVal h "content-encoding" "identity" = "identity" ∧
      textLikeContentType (headerFirstVal h "content-type" "text/plain") = true := by
  simp only [_is_binary_content, scanContentHeaders_eq,
    lastMatchVal_eq_headerFirstVal h "content-type" "text/plain" hct,
    lastMatchVal_eq_headerFirstVal h "content-encoding" "identity" hce]
  rw [isTextContentType_eq]
  by_cases h1 : headerFirstVal h "content-encoding" "identity" = "identity" <;>
    cases h2 : textLikeContentType (headerFirstVal h "content-type" "text/plain") <;>
      simp [h1, h2]

/-- Witness for C1: identity-encoded `application/json` is classified text,
`image/png` binary. -/
theorem is_binary_content_spec_witness :
    _is_binary_content exJsonHeaders = false ∧ _is_binary_content exPngHeaders = true := by
  constructor
  · exact (is_binary_content_spec exJsonHeaders (by decide) (by decide) (by decide)).mpr
      (by decide)
  · have hiff := is_binary_content_spec exPngHeaders (by decide) (by decide) (by decide)
    cases hb : _is_binary_content exPngHeaders
    · exact absurd (hiff.mp hb) (by decide)
    · rfl

theorem headerName_cl : (pyLower "Content-Length" == "content-length") = true := by decide

theorem headerName_ct : (pyLower "Content-Type" == "content-length") = false := by decide

/-- Claim C2, counterexample: a `HEAD` request for an existing one-byte file
yields a response whose `Content-Length` is the file size 1 while the body is
empty, so the claimed invariant `Content-Length = len(body)` fails on it. -/
theorem static_content_length_claim_cex :
    ¬ ContentLengthInv (_static_handler cexFs noGuess "app/build" "HEAD" "/index.html") := by
  unfold ContentLengthInv
  decide

/-- Claim C2, amended: every response of the static resolver carries a single
`Content-Length` value; for a `HEAD` request for an existing regular file the
body is empty and `Content-Length` is the file's size, and in every other case
`Content-Length` equals the length of the response body. -/
theorem static_content_length_amended (fs : String → Option Bytes)
    (gt : String → Option String) (sp method path : String) :
    ((pyUpper method = "HEAD" ∧ (fs (resolvePath sp path)).isSome = true) →
      (_static_handler fs gt sp method path).2.2 = some [] ∧
      contentLengthVals (_static_handler fs gt sp method path).2.1
        = [toString ((fs (resolvePath sp path)).getD []).length]) ∧
    (¬(pyUpper method = "HEAD" ∧ (fs (resolvePath sp path)).isSome = true) →
      contentLengthVals (_static_handler fs gt sp method path).2.1
        = [toString (respBodyLen (_static_handler fs gt sp method path))]) := by
  constructor
  · rintro ⟨hm, hsome⟩
    simp [_static_handler, hm, hsome, contentLengthVals, headerName_cl, headerName_ct]
  · intro hn
    by_cases hsome : (fs (resolvePath sp path)).isSome = true
    · by_cases hacc : pyUpper method = "GET" ∨ pyUpper method = "HEAD"
      · rcases hacc with hg | hh
        · simp [_static_handler, hg, hsome, contentLengthVals, respBodyLen,
            headerName_cl, headerName_ct]
        · exact absurd ⟨hh, hsome⟩ hn
      · simp [_static_handler, hacc, contentLengthVals, respBodyLen,
          headerName_cl, headerName_ct]
    · by_cases hacc : pyUpper method = "GET" ∨ pyUpper method = "HEAD"
      · simp [_static_handler, hacc, hsome, contentLengthVals, respBodyLen,
          headerName_cl, headerName_ct]
      · simp [_static_handler, hacc, hsome, contentLengthVals, respBodyLen,
          headerName_cl, headerName_ct]

/-- Witness for the amended C2: the `HEAD` response for the one-byte
`index.html` has an empty body and `Content-Length` equal to the file size. -/
theorem static_content_length_amended_witness :
    (_static_handler cexFs noGuess "app/build" "HEAD" "/index.html").2.2 = some [] ∧
    contentLengthVals (_static_handler cexFs noGuess "app/build" "HEAD" "/index.html").2.1
      = [toString ((cexFs (resolvePath "app/build" "/index.html")).getD []).length] :=
  (static_content_length_amended cexFs noGuess "app/build" "HEAD" "/index.html").1
    (by constructor <;> decide)

theorem exactCookie_cookieish {p : String × List String} (hp : exactCookie p = true) :
    cookieish p = true := by
  rw [exactCookie, beq_iff_eq] at hp
  rw [cookieish, hp]
  decide

theorem countP_zero_no_exact {l : Headers} (h0 : l.countP cookieish = 0) :
    l.any exactCookie = false := by
  rw [List.countP_eq_zero] at h0
  rw [List.any_eq_false]
  intro p hp hpe
  exact h0 p hp (exactCookie_cookieish hpe)

theorem map_upd_id (l : Headers) (c : String) (hl : l.any exactCookie = false) :
    (l.map fun p => if p.1 = "Cookie" then (p.1, p.2 ++ [c]) else p) = l := by
  rw [List.any_eq_false] at hl
  have hid : ∀ p ∈ l, (if p.1 = "Cookie" then (p.1, p.2 ++ [c]) else p) = id p := by
    intro p hp
    rw [if_neg, id]
    intro he
    exact hl p hp (by rw [exactCookie, he]; rfl)
  rw [List.map_congr_left hid, List.map_id]

theorem filter_cookieish_nil {l : Headers} (h0 : l.countP cookieish = 0) :
    l.filter cookieish = [] := by
  rw [List.countP_eq_zero] at h0
  rw [List.filter_eq_nil_iff]
  exact h0

theorem addCookie_values (h : Headers) (c : String) (hinv : CookieInv h) :
    cookieValues (addCookie h c) = cookieValues h ++ [c] ∧ CookieInv (addCookie h c) := by
  have hcc : cookieish ("Cookie", [c]) = true :=
    exactCookie_cookieish (by rw [exactCookie]; rfl)
  rcases hinv with ⟨hno, _⟩ | ⟨h1, vs, h2, rfl, hno1, h02⟩
  · have hins : addCookie h c = h ++ [("Cookie", [c])] := by
      rw [addCookie, if_neg]
      rw [show (fun p : String × List String => p.1 == "Cookie") = exactCookie from rfl, hno]
      simp
    constructor
    · rw [hins, cookieValues, List.filter_append, List.flatMap_append,
        List.filter_cons_of_pos hcc, List.filter_nil]
      rfl
    · right
      exact ⟨h, [c], [], by rw [hins], hno, rfl⟩
  · have hmid : exactCookie ("Cookie", vs) = true := by rw [exactCookie]; rfl
    have hany : (h1 ++ ("Cookie", vs) :: h2).any exactCookie = true := by
      rw [List.any_eq_true]
      exact ⟨("Cookie", vs), by simp, hmid⟩
    have hupd : addCookie (h1 ++ ("Cookie", vs) :: h2) c
        = h1 ++ ("Cookie", vs ++ [c]) :: h2 := by
      rw [addCookie, if_pos]
      · rw [List.map_append, List.map_cons, map_upd_id h1 c hno1,
          map_upd_id h2 c (countP_zero_no_exact h02), if_pos rfl]
      · rw [show (fun p : String × List String => p.1 == "Cookie") = exactCookie from rfl,
          hany]
    have hmid' : cookieish ("Cookie", vs) = true := exactCookie_cookieish hmid
    have hmid'' : cookieish ("Cookie", vs ++ [c]) = true :=
      exactCookie_cookieish (by rw [exactCookie]; rfl)
    constructor
    · rw [hupd, cookieValues, cookieValues, List.filter_append, List.filter_append,
        List.filter_cons_of_pos hmid', List.filter_cons_of_pos hmid'',
        filter_cookieish_nil h02, List.flatMap_append, List.flatMap_append]
      simp [List.append_assoc]
    · right
      exact ⟨h1, vs ++ [c], h2, by rw [hupd], hno1, h02⟩

theorem mergeCookies_values :
    ∀ (cs : List String) (h : Headers), CookieInv h →
      cookieValues (mergeCookies h cs) = cookieValues h ++ cs ∧
      CookieInv (mergeCookies h cs) := by
  intro cs
  induction cs with
  | nil => intro h hi; exact ⟨(List.append_nil _).symm, hi⟩
  | cons c t ih =>
    intro h hi
    have step := addCookie_values h c hi
    have rest := ih (addCookie h c) step.2
    refine ⟨?_, rest.2⟩
    rw [show mergeCookies h (c :: t) = mergeCookies (addCookie h c) t from rfl,
      rest.1, step.1, List.append_assoc]
    rfl

theorem cookieInv_of_countP_le_one {h : Headers} (h1 : h.countP cookieish ≤ 1) :
    CookieInv h := by
  by_cases hany : h.any exactCookie = true
  · rw [List.any_eq_true] at hany
    obtain ⟨p, hp, hpe⟩ := hany
    obtain ⟨s, t, rfl⟩ := List.append_of_mem hp
    obtain ⟨a, b⟩ := p
    have ha : a = "Cookie" := by rwa [exactCookie, beq_iff_eq] at hpe
    subst ha
    have hcp : cookieish ("Cookie", b) = true := exactCookie_cookieish hpe
    rw [List.countP_append, List.countP_cons, hcp, if_pos rfl] at h1
    have hs : s.countP cookieish = 0 := by omega
    have ht : t.countP cookieish = 0 := by omega
    right
    exact ⟨s, b, t, rfl, countP_zero_no_exact hs, ht⟩
  · left
    exact ⟨by rwa [Bool.not_eq_true] at hany, h1⟩

theorem mergeCookies_fresh (h : Headers) (hno : h.any exactCookie = false)
    (c : String) (cs : List String) :
    mergeCookies h (c :: cs) = h ++ [("Cookie", c :: cs)] := by
  have key : ∀ (t : List String) (vs : List String),
      mergeCookies (h ++ [("Cookie", vs)]) t = h ++ [("Cookie", vs ++ t)] := by
    intro t
    induction t with
    | nil => intro vs; rw [mergeCookies, List.foldl_nil, List.append_nil]
    | cons c' t' ih =>
      intro vs
      have hany : (h ++ [("Cookie", vs)]).any exactCookie = true := by
        rw [List.any_eq_true]
        exact ⟨("Cookie", vs), by simp, by rw [exactCookie]; rfl⟩
      have hstep : addCookie (h ++ [("Cookie", vs)]) c' = h ++ [("Cookie", vs ++ [c'])] := by
        rw [addCookie, if_pos]
        · rw [List.map_append, List.map_cons, List.map_nil, map_upd_id h c' hno, if_pos rfl]
        · rw [show (fun p : String × List String => p.1 == "Cookie") = exactCookie from rfl,
            hany]
      rw [show mergeCookies (h ++ [("Cookie", vs)]) (c' :: t')
            = mergeCookies (addCookie (h ++ [("Cookie", vs)]) c') t' from rfl,
        hstep, ih (vs ++ [c']), List.append_assoc]
      rfl
  have hfirst : addCookie h c = h ++ [("Cookie", [c])] := by
    rw [addCookie, if_neg]
    rw [show (fun p : String × List String => p.1 == "Cookie") = exactCookie from rfl, hno]
    simp
  rw [show mergeCookies h (c :: cs) = mergeCookies (addCookie h c) cs from rfl,
    hfirst, key cs [c]]
  rfl

/-- Claim C4: the gateway event's cookies are appended, in order, to the
multi-valued case-insensitive `Cookie` header built from the event's headers
(never replacing existing values); when no `Cookie` header pre-exists under
any casing, the result holds a single `Cookie` entry whose value sequence is
exactly the cookie list. -/
theorem gateway_cookie_merge (eventHeaders : List (String × String))
    (cookies : List String)
    (h1 : (parseEventHeaders eventHeaders).countP cookieish ≤ 1) :
    cookieValues (gatewayRequestHeaders eventHeaders cookies)
      = cookieValues (parseEventHeaders eventHeaders) ++ cookies ∧
    ((parseEventHeaders eventHeaders).countP cookieish = 0 →
      (gatewayRequestHeaders eventHeaders cookies).filter cookieish
        = if cookies = [] then [] else [("Cookie", cookies)]) := by
  constructor
  · exact (mergeCookies_values cookies _ (cookieInv_of_countP_le_one h1)).1
  · intro h0
    cases cookies with
    | nil =>
      rw [if_pos rfl, gatewayRequestHeaders, mergeCookies, List.foldl_nil]
      exact filter_cookieish_nil h0
    | cons c cs =>
      rw [gatewayRequestHeaders, mergeCookies_fresh _ (countP_zero_no_exact h0),
        List.filter_append, filter_cookieish_nil h0,
        List.filter_cons_of_pos (exactCookie_cookieish (by rw [exactCookie]; rfl)),
        List.filter_nil]
      simp

/-- Witness for C4: cookies `["a=1","b=2"]` with no pre-existing `Cookie`
header become a single `Cookie` header valued `["a=1","b=2"]`. -/
theorem gateway_cookie_merge_witness :
    cookieValues (gatewayRequestHeaders [] ["a=1", "b=2"]) = ["a=1", "b=2"] ∧
    (gatewayRequestHeaders [] ["a=1", "b=2"]).filter cookieish
      = [("Cookie", ["a=1", "b=2"])] := by
  have hm := gateway_cookie_merge [] ["a=1", "b=2"] (by decide)
  exact ⟨hm.1, by rw [hm.2 rfl]; rfl⟩

/-- Claim C5: serializing a response for the gateway extracts every header
named `Set-Cookie` (case-insensitively) out of the reply's headers map and
into the reply's cookies list, while every other header appears in the map
with its values comma-joined; in particular a response with two `Set-Cookie`
values yields a cookies list of length 2 and no `Set-Cookie` map entry. -/
theorem gateway_set_cookie_extraction :
    (∀ (h : Headers) (n s : String), pyLower n = "set-cookie" →
      (n, s) ∉ gatewayReplyHeaders h) ∧
    (∀ (h : Headers) (n : String) (vs : List String) (v : String),
      (n, vs) ∈ h → pyLower n = "set-cookie" → v ∈ vs →
      v ∈ gatewayReplyCookies h) ∧
    (∀ (h : Headers) (n : String) (vs : List String),
      (n, vs) ∈ h → pyLower n ≠ "set-cookie" →
      (n, joinComma vs) ∈ gatewayReplyHeaders h) ∧
    (gatewayReplyCookies exSetCookieHeaders).length = 2 ∧
    (∀ s, ("Set-Cookie", s) ∉ gatewayReplyHeaders exSetCookieHeaders) := by
  refine ⟨?_, ?_, ?_, by decide, ?_⟩
  · intro h n s hn hmem
    simp only [gatewayReplyHeaders, List.mem_map, List.mem_filter] at hmem
    obtain ⟨p, ⟨_, hpf⟩, hpe⟩ := hmem
    obtain ⟨he1, _⟩ := Prod.mk.injEq _ _ _ _ ▸ hpe
    rw [he1, hn] at hpf
    simp at hpf
  · intro h n vs v hmem hn hv
    simp only [gatewayReplyCookies, List.mem_flatMap, List.mem_filter]
    exact ⟨(n, vs), ⟨hmem, by simp [hn]⟩, hv⟩
  · intro h n vs hmem hn
    simp only [gatewayReplyHeaders, List.mem_map, List.mem_filter]
    exact ⟨(n, vs), ⟨hmem, by simp [hn]⟩, rfl⟩
  · intro s hmem
    have hred : gatewayReplyHeaders exSetCookieHeaders = [("Content-Type", "text/html")] := by
      decide
    rw [hred] at hmem
    simp at hmem

/-- Witness for C5: applying the extraction theorem to the two-`Set-Cookie`
response puts `s1=1` in the cookies list and keeps `Content-Type` comma-joined
in the headers map. -/
theorem gateway_set_cookie_extraction_witness :
    "s1=1" ∈ gatewayReplyCookies exSetCookieHeaders ∧
    ("Content-Type", joinComma ["text/html"]) ∈ gatewayReplyHeaders exSetCookieHeaders :=
  ⟨gateway_set_cookie_extraction.2.1 exSetCookieHeaders "Set-Cookie" ["s1=1", "s2=2"]
      "s1=1" (by decide) (by decide) (by decide),
   gateway_set_cookie_extraction.2.2.1 exSetCookieHeaders "Content-Type" ["text/html"]
      (by decide) (by decide)⟩

end ProxySpike
